import Mathlib

/-!
Verification of the garment-composition pipeline of the AI-Fitting-Room
repository.  The definitions below are a shallow embedding of the
TypeScript source: `types.ts` (data model), `hooks/useGeminiApi.ts`
(`generateVirtualTryOn`, `recommendSize`) and `App.tsx` (`handleGenerate`).
The external inference capability is modelled by an `Oracle` supplying the
responses of the `generateContent` calls; the orchestration functions
return the list of capability calls they issue, the progress messages they
emit, and their terminal result.
-/

namespace VirtualTryOn

/-- `UploadedImage` from `types.ts`: id, encoded bytes (base64), media type
and pixel dimensions.  The `file`/`preview` presentation-layer fields are
not part of the core pipeline and are omitted. -/
structure UploadedImage where
  id : String
  base64 : String
  mimeType : String
  width : Nat
  height : Nat
deriving DecidableEq, Repr

/-- `Garment` from `types.ts`: an `UploadedImage` plus an optional
`description` populated by the analysis stage. -/
structure Garment extends UploadedImage where
  description : Option String
deriving DecidableEq, Repr

/-- `BodyAnalysis` from `types.ts` (JS numbers idealised as rationals). -/
structure BodyAnalysis where
  estimated_height_in : ℚ
  bust_or_chest_in : ℚ
  waist_in : ℚ
  hip_in : ℚ
  build : String
  posture_notes : String
  confidence_0_to_1 : ℚ
deriving DecidableEq, Repr

/-- `SizeRecommendation` from `types.ts`. -/
structure SizeRecommendation where
  base_size : Option String
  try_on_sizes : List String
  skipped_sizes : List String
  reason : String
deriving DecidableEq, Repr

/-- One part of a `generateContent` request or response
(`fileToGenerativePart` builds the `inlineData` form). -/
inductive Part where
  | inlineData (data : String) (mimeType : String)
  | text (s : String)
deriving DecidableEq, Repr

/-- `fileToGenerativePart` from `useGeminiApi.ts`. -/
def fileToGenerativePart (base64 mimeType : String) : Part :=
  Part.inlineData base64 mimeType

/-- A capability call issued by the orchestration, with the parts it sends;
synthesis calls also carry the aspect-ratio generation configuration. -/
inductive CapCall where
  | analyzeText (parts : List Part)
  | synthesizeImage (parts : List Part) (aspectRatioConfig : String)
deriving DecidableEq, Repr

/-- Spec section 7 error taxonomy, tagging the failure paths of the code. -/
inductive TryOnError where
  | MissingInput
  | AnalysisFailed (message : String)
  | TransportFailure (message : String)
  | NoImageProduced (message : String)
deriving DecidableEq, Repr

/-- The observable content of a synthesis `generateContent` response:
`candidates[0].content.parts` and the aggregated `response.text`. -/
structure SynthResponse where
  parts : List Part
  text : Option String
deriving DecidableEq, Repr

/-- The opaque inference capability.  `analyze i` is the `response.text` of
the i-th analysis call of the stage (`Except.error` = transport failure,
`none` = response with no text); `synth` is the synthesis response. -/
structure Oracle where
  analyze : Nat → Except String (Option String)
  synth : Except String SynthResponse

/-- `response.text ? response.text.trim() : "garment"`: a missing or empty
(falsy) text yields the literal fallback, otherwise the text is trimmed. -/
def trimOrFallback : Option String → String
  | none => "garment"
  | some s => if s = "" then "garment" else s.trim

/-- The three analysis modes of spec section 4.1. -/
inductive AnalysisStrategy where
  | Consolidated
  | SingleVisualOnly
  | ParallelIndividual
deriving DecidableEq, Repr

/-- The branch structure of the analysis stage of `generateVirtualTryOn`
(`if (isSameGarment) ... else if (initialGarments.length === 1) ... else`),
as a pure function of garment count and flag. -/
def selectStrategy (garmentCount : Nat) (sameGarment : Bool) : AnalysisStrategy :=
  if sameGarment then AnalysisStrategy.Consolidated
  else if garmentCount = 1 then AnalysisStrategy.SingleVisualOnly
  else AnalysisStrategy.ParallelIndividual

/-- The progress message the analysis stage emits when entering each
branch. -/
def strategyMessage : AnalysisStrategy → String
  | AnalysisStrategy.Consolidated => "Analyzing garment structure (Consolidated)..."
  | AnalysisStrategy.SingleVisualOnly => "Processing garment..."
  | AnalysisStrategy.ParallelIndividual => "Analyzing and isolating garments (Parallel)..."

/-- The consolidated-analysis prompt literal of `generateVirtualTryOn`. -/
def consolidatedAnalysisPrompt : String :=
  "Act as a technical fashion designer. \n      These images are multiple views of a **SINGLE GARMENT**.\n      Analyze them together to create ONE cohesive, highly detailed technical description for this single item.\n      Focus on:\n      1. Fabric texture, weight, and material properties.\n      2. Precise construction details (e.g., seams, ruffles, hem style).\n      3. Exact fit and silhouette.\n      4. Accurate color and pattern.\n      5. IGNORE duplicate views; synthesize them into one description.\n      Be precise and technical."

/-- The per-garment analysis prompt literal of `generateVirtualTryOn`. -/
def individualAnalysisPrompt : String :=
  "Act as a technical fashion designer. Analyze this garment image and provide a highly detailed technical description. \n          Focus specifically on:\n          1. Fabric texture, weight, and material properties.\n          2. Precise construction details (e.g., specific ruffle types, pleat direction, seam placement, hem style).\n          3. Exact volume, silhouette, and fit.\n          4. Accurate color and pattern details.\n          Be precise and technical."

/-- The inline-data part built from a garment for an analysis call. -/
def garmentAnalysisPart (g : Garment) : Part :=
  fileToGenerativePart g.base64 g.mimeType

/-- The output of the analysis stage: calls issued, progress emitted, and
the isolated garments (or the propagated failure). -/
structure StageOut where
  calls : List CapCall
  progress : List String
  result : Except TryOnError (List Garment)

/-- `Promise.all` over the analysis responses: the join waits for all and
fails as a whole if any branch failed. -/
def collectResponses : List (Except String (Option String)) → Except String (List (Option String))
  | [] => Except.ok []
  | Except.error e :: _ => Except.error e
  | Except.ok t :: rest => (collectResponses rest).map (fun l => t :: l)

/-- Step 1 of `generateVirtualTryOn` (lines 44-114): strategy branch,
analysis calls, and the isolated garments carrying their descriptions. -/
def analyzeStage (initialGarments : List Garment) (isSameGarment : Bool)
    (oracle : Oracle) : StageOut :=
  if isSameGarment then
    { calls := [CapCall.analyzeText ((initialGarments.map garmentAnalysisPart)
        ++ [Part.text consolidatedAnalysisPrompt])]
      progress := [strategyMessage AnalysisStrategy.Consolidated]
      result :=
        match oracle.analyze 0 with
        | Except.error e => Except.error (TryOnError.AnalysisFailed e)
        | Except.ok t =>
          let consolidatedDescription := trimOrFallback t
          Except.ok (initialGarments.map
            (fun g => { g with description := some consolidatedDescription })) }
  else if initialGarments.length = 1 then
    { calls := []
      progress := [strategyMessage AnalysisStrategy.SingleVisualOnly]
      result := Except.ok (initialGarments.map
        (fun g => { g with description := some "" })) }
  else
    { calls := initialGarments.map
        (fun g => CapCall.analyzeText [garmentAnalysisPart g, Part.text individualAnalysisPrompt])
      progress := [strategyMessage AnalysisStrategy.ParallelIndividual]
      result :=
        match collectResponses ((List.range initialGarments.length).map oracle.analyze) with
        | Except.error e => Except.error (TryOnError.AnalysisFailed e)
        | Except.ok texts =>
          let descriptions := (initialGarments.zip texts).map
            (fun p => (p.1.id, trimOrFallback p.2))
          Except.ok (initialGarments.map (fun g =>
            match descriptions.find? (fun d => d.1 == g.id) with
            | some d => { g with description := some d.2 }
            | none => { g with description := some "" })) }

/-- JavaScript regex word character class `\w` = `[A-Za-z0-9_]`. -/
def isWordChar (c : Char) : Bool :=
  c.isAlpha || c.isDigit || c = '_'

/-- A word boundary `\b` holds against a neighbouring position that is
absent (string edge) or holds a non-word character (the keywords matched
below all start and end with word characters). -/
def boundaryOk : Option Char → Bool
  | none => true
  | some c => !isWordChar c

/-- If `p` is a prefix of `s`, return the remainder of `s`. -/
def consumePat : List Char → List Char → Option (List Char)
  | [], s => some s
  | _ :: _, [] => none
  | a :: p, b :: s => if a = b then consumePat p s else none

/-- Does the pattern match at the current position, with word boundaries on
both sides (`prev` is the character just before the position)? -/
def wbMatchAt (p s : List Char) (prev : Option Char) : Bool :=
  boundaryOk prev &&
    (match consumePat p s with
     | none => false
     | some rest => boundaryOk rest.head?)

/-- Scan of `s` for a word-boundary-delimited occurrence of `p`. -/
def wbSearchAux (p : List Char) : Option Char → List Char → Bool
  | prev, [] => wbMatchAt p [] prev
  | prev, c :: s => wbMatchAt p (c :: s) prev || wbSearchAux p (some c) s

/-- `new RegExp("\\b(" + w + ")\\b").test s` for a single alternative `w`. -/
def wordMatch (w : String) (s : String) : Bool :=
  wbSearchAux w.data none s.data

/-- Boolean alternation test with word boundaries, as in
`/\b(w1|w2|...)\b/.test(s)`. -/
def anyWordMatch (ws : List String) (s : String) : Bool :=
  ws.any (fun w => wordMatch w s)

/-- Plain substring search (a regex alternation without `\b`). -/
def subSearch (pat : List Char) : List Char → Bool
  | [] => pat.isEmpty
  | c :: s => pat.isPrefixOf (c :: s) || subSearch pat s

/-- Boolean alternation test without word boundaries, as in
`/w1|w2|.../.test(s)`. -/
def anySubMatch (ws : List String) (s : String) : Bool :=
  ws.any (fun w => subSearch w.data s.data)

/-- Does `s` contain `pat` as a substring? -/
def strContains (s pat : String) : Bool :=
  subSearch pat.data s.data

/-- The six boolean styling flags derived at lines 131-137 of
`useGeminiApi.ts` (spec names: hasFullBodyOutfit = `hasDress`,
replacesBottoms = `hasNewBottoms`, replacesTop = `hasNewTop`,
hasHeadwear = `hasHat`). -/
structure StylingFlags where
  hasDress : Bool
  hasNecklace : Bool
  hasShoes : Bool
  hasNewBottoms : Bool
  hasNewTop : Bool
  hasHat : Bool
deriving DecidableEq, Repr

def dressWords : List String :=
  ["dress", "gown", "frock", "jumpsuit", "romper", "suit", "maxi", "mini", "midi"]

def necklaceWords : List String :=
  ["necklace", "pendant", "choker", "chain", "jewel", "beads", "pearls", "strand", "neckwear"]

def shoeWords : List String :=
  ["shoe", "boots", "heels", "sandals", "sneakers", "flats", "pumps", "footwear", "stiletto", "wedge"]

def bottomsWords : List String :=
  ["skirt", "pants", "trousers", "jeans", "leggings", "shorts"]

def topWords : List String :=
  ["top", "shirt", "blouse", "t-shirt", "cardigan", "jacket", "bodysuit", "sweater", "vest"]

def hatWords : List String :=
  ["hat", "cap", "beanie", "fedora", "beret"]

/-- `.toLowerCase()` as used on the description text (ASCII case folding;
defined over the character list so that it is computable by reduction). -/
def jsToLowerCase (s : String) : String :=
  ⟨s.data.map Char.toLower⟩

/-- Flag derivation from the joined description text: the text is
lower-cased, every vocabulary is matched with word boundaries except the
bottoms list (whose regex has no `\b`), and the full-body-outfit flag also
triggers the top and bottoms replacement flags. -/
def deriveFlags (garmentDescriptions : String) : StylingFlags :=
  let descLower := jsToLowerCase garmentDescriptions
  let hasDress := anyWordMatch dressWords descLower
  { hasDress := hasDress
    hasNecklace := anyWordMatch necklaceWords descLower
    hasShoes := anyWordMatch shoeWords descLower
    hasNewBottoms := hasDress || anySubMatch bottomsWords descLower
    hasNewTop := hasDress || anyWordMatch topWords descLower
    hasHat := anyWordMatch hatWords descLower }

/-- Lines 124-129 of `useGeminiApi.ts`: consolidated mode uses the first
description (`isolatedGarments[0].description || ""`), otherwise the
non-empty descriptions are joined with a comma
(`.map(g => g.description).filter(Boolean).join(', ')`). -/
def joinDescriptions (descriptions : List String) (consolidated : Bool) : String :=
  if consolidated && decide (descriptions.length > 0) then
    descriptions.headD ""
  else
    String.intercalate ", " (descriptions.filter (fun s => !(s == "")))

/-- The attribute classifier of spec section 4.2 as it appears inline in
the code: join the descriptions per the strategy, then derive the flags. -/
def classify (descriptions : List String) (consolidated : Bool) : StylingFlags :=
  deriveFlags (joinDescriptions descriptions consolidated)

/-- Aspect-ratio resolution (lines 145-153): zero (falsy) dimensions keep
the `"1:1"` default, otherwise the first canonical ratio within absolute
tolerance `0.1` of `width/height` wins, in the fixed order
16:9, 9:16, 4:3, 3:4; real arithmetic is idealised over `ℚ`. -/
def resolveAspect (width height : Nat) : String :=
  if width ≠ 0 ∧ height ≠ 0 then
    let r : ℚ := (width : ℚ) / (height : ℚ)
    if |r - 16 / 9| < 1 / 10 then "16:9"
    else if |r - 9 / 16| < 1 / 10 then "9:16"
    else if |r - 4 / 3| < 1 / 10 then "4:3"
    else if |r - 3 / 4| < 1 / 10 then "3:4"
    else "1:1"
  else "1:1"

/-- Synthesis prompt template, up to the `aspectRatio` interpolation. -/
def promptChunk1 : String :=
  "You are a hyper-realistic AI photo-editing tool. Your sole function is to perform a virtual try-on.\n    \n**-- CRITICAL PRIORITY: PRESERVE IDENTITY AND FRAME --**\n1.  **NO CROPPING:** The output must have existing composition.\n2.  **IDENTITY LOCK:** The person's identity must be preserved EXACTLY.\n3.  **ASPECT RATIO:** "

/-- Template between the `aspectRatio` and `hasNecklace` interpolations. -/
def promptChunk2 : String :=
  ".\n\n**-- GARMENT ACCURACY RULES --**\n**-- 1:1 REPLICATION ENFORCEMENT --**\n1.  **SHOES & GARMENTS:** Must be a PIXEL-PERFECT match to the reference. Do not hallucinate straps, heel height, or toe shape. Preserve buckles, bows, and hardware EXACTLY as they appear in the reference.\n2.  **RUFFLES & CONSTRUCTION:** The specific count, placement, and \"fall\" of ruffles must exactly match the technical reality of the reference.\n3.  **SOURCE OF TRUTH:** The \"GARMENTS\" images are the texture maps. Wrap them onto the subject.\n\n**-- STYLING INTELLIGENCE --**\n1.  **ACCESSORY ADAPTATION:** For accessories like bags, use expert fashion judgment to reduce clashing.\n2.  **NECKWEAR LOGIC:** \n    -   **IF** the user uploaded a NECKLACE ("

/-- Template between the `hasNecklace` and `hasHat` interpolations; it
holds the whole neckwear conditional: the IF(necklace) branch banning
scarves/ties from the neck, and the ELSE branch styling them at the
neck. -/
def promptChunk3 : String :=
  "): \n        -   **ACTION:** The NECKLACE must be visible on the skin.\n        -   **FORBIDDEN:** Do NOT place any matching dress scarves/ties on the neck.\n        -   **REQUIRED STYLING:** You MUST move the scarf/tie to the ARMS (shawl position) or trailing behind. It is strictly banned from the neck area to avoid conflict.\n    -   **ELSE** (No necklace): Style scarves/ties naturally around the neck as intended by the original garment.\n3.  **HEADWEAR LOGIC:**\n    -   **IF** the user uploaded a HAT ("

/-- Template between the `hasHat` interpolation and the description
conditional. -/
def promptChunk4 : String :=
  "):\n        -   **ACTION:** Replace any existing headwear. Ensure it sits naturally on the head.\n4.  **HARMONY:** Prioritize the overall look's cohesion.\n\n**-- PHOTOREALISM & LIGHTING RULES --**\n1.  **LIGHTING MATCH:** The lighting on the new garments MUST perfectly match the lighting on the subject's skin and face.\n2.  **NATURAL DRAPING:** Fabric must drape naturally over the body's curves.\n3.  **CAST SHADOWS:** The garments must cast realistic shadows on the body and ground.\n4.  **TEXTURE:** Enhance fabric texture (e.g., silk sheen, cotton matte) to look tangible.\n\n**-- INSTRUCTIONS --**\n-   SUBJECT: The first image.\n-   GARMENTS: The subsequent images.\n-   ACTION: Dress the SUBJECT in the GARMENTS.\n    -   New garments: USE VISUAL TEXTURE FROM IMAGES."

/-- The synthesis prompt of lines 155-195, with the five interpolations of
the template (aspect ratio, necklace marker, hat marker, optional
description, and the three replace/keep/full-body clauses). -/
def buildPrompt (flags : StylingFlags) (aspectRatioValue : String)
    (garmentDescriptions : String) : String :=
  promptChunk1 ++ aspectRatioValue ++ promptChunk2
    ++ (if flags.hasNecklace then "YES" else "NO") ++ promptChunk3
    ++ (if flags.hasHat then "YES" else "NO") ++ promptChunk4
    ++ (if garmentDescriptions ≠ "" then " (Description: " ++ garmentDescriptions ++ ")" else "")
    ++ ".\n    -   "
    ++ (if flags.hasNewTop then "REPLACE the subject's top." else "KEEP the subject's top.")
    ++ "\n    -   "
    ++ (if flags.hasNewBottoms then "REPLACE the subject's bottoms." else "KEEP the subject's bottoms.")
    ++ "\n    -   "
    ++ (if flags.hasDress then "Ensure the garment is worn as a full-body outfit, completely replacing the original outfit. Do not render as a vest." else "Ensure seamless integration.")
    ++ "\n"

/-- The fixed message of the error thrown when the synthesis response holds
no inline image (line 225). -/
def noImageMessage : String :=
  "The AI failed to generate an image. It may have refused the request or produced an invalid response."

/-- `p.inlineData` truthiness used by the result-extraction `find`. -/
def partHasInlineData : Part → Bool
  | Part.inlineData _ _ => true
  | Part.text _ => false

/-- The outcome of one orchestration invocation: capability calls issued
(in order), progress messages emitted (in order), terminal result. -/
structure RunResult where
  calls : List CapCall
  progress : List String
  result : Except TryOnError String
deriving Repr

/-- Steps 2-3 of `generateVirtualTryOn` (lines 116-225): description join,
flag derivation, aspect-ratio resolution, prompt build, the synthesis call
and result extraction.  `calls0`/`progress0` carry what the analysis stage
already produced. -/
def finishStage (modelImage : UploadedImage) (isolatedGarments : List Garment)
    (isSameGarment : Bool) (oracle : Oracle)
    (calls0 : List CapCall) (progress0 : List String) : RunResult :=
  let progress1 := progress0 ++ ["Compositing new look..."]
  let garmentDescriptions :=
    joinDescriptions (isolatedGarments.map (fun g => g.description.getD "")) isSameGarment
  let flags := deriveFlags garmentDescriptions
  let aspectRatioValue := resolveAspect modelImage.width modelImage.height
  let prompt := buildPrompt flags aspectRatioValue garmentDescriptions
  let modelImagePart := fileToGenerativePart modelImage.base64 modelImage.mimeType
  let garmentImageParts := isolatedGarments.map (fun g =>
    fileToGenerativePart g.base64 (if g.mimeType = "" then "image/png" else g.mimeType))
  let calls1 := calls0
    ++ [CapCall.synthesizeImage ([Part.text prompt, modelImagePart] ++ garmentImageParts)
          aspectRatioValue]
  match oracle.synth with
  | Except.error e =>
    { calls := calls1, progress := progress1
      result := Except.error (TryOnError.TransportFailure e) }
  | Except.ok response =>
    match response.parts.find? partHasInlineData with
    | some (Part.inlineData data mimeType) =>
      { calls := calls1, progress := progress1 ++ ["Finalizing image..."]
        result := Except.ok ("data:" ++ mimeType ++ ";base64," ++ data) }
    | _ =>
      { calls := calls1, progress := progress1
        result := Except.error (TryOnError.NoImageProduced noImageMessage) }

/-- `generateVirtualTryOn` of `useGeminiApi.ts`: analysis stage followed by
classification, prompt build, synthesis and extraction; an analysis
failure aborts the invocation. -/
def generateVirtualTryOn (modelImage : UploadedImage) (initialGarments : List Garment)
    (isSameGarment : Bool) (oracle : Oracle) : RunResult :=
  let stage := analyzeStage initialGarments isSameGarment oracle
  match stage.result with
  | Except.error e =>
    { calls := stage.calls, progress := stage.progress, result := Except.error e }
  | Except.ok isolatedGarments =>
    finishStage modelImage isolatedGarments isSameGarment oracle stage.calls stage.progress

/-- `handleGenerate` of `App.tsx` (standard workflow, lines 98-135): the
entry precondition check `!modelImage || garments.length === 0` fails the
invocation before any capability call. -/
def handleGenerate (modelImage : Option UploadedImage) (garments : List Garment)
    (isSameGarment : Bool) (oracle : Oracle) : RunResult :=
  match modelImage with
  | none => { calls := [], progress := [], result := Except.error TryOnError.MissingInput }
  | some img =>
    if garments.length = 0 then
      { calls := [], progress := [], result := Except.error TryOnError.MissingInput }
    else
      generateVirtualTryOn img garments isSameGarment oracle

/-- `recommendSize` of `useGeminiApi.ts` (lines 286-336), from the
structured response onward: the capability response is modelled as the
parsed `SizeRecommendation` payload (`none` = the response had no text);
the code returns the parsed record as-is and never consults
`availableSizes` again. -/
def recommendSize (bodyAnalysis : BodyAnalysis) (productInfo : String)
    (availableSizes : List String) (response : Option SizeRecommendation) :
    Except TryOnError SizeRecommendation :=
  match response with
  | none => Except.error (TryOnError.AnalysisFailed "Failed to recommend size.")
  | some r => Except.ok r

/-! Helper lemmas about the substring search, used to reason about the
built prompt for arbitrary interpolated values. -/

theorem subSearch_eq_true_iff (pat : List Char) :
    ∀ l : List Char, subSearch pat l = true ↔ pat <:+: l
  | [] => by simp [subSearch, List.isEmpty_iff]
  | c :: s => by
    simp [subSearch, subSearch_eq_true_iff pat s, List.infix_cons_iff]

theorem strContains_eq_true_iff (s pat : String) :
    strContains s pat = true ↔ pat.data <:+: s.data := by
  exact subSearch_eq_true_iff pat.data s.data

/-- Substring containment is preserved by prepending text. -/
theorem strContains_append_right (s t pat : String)
    (h : strContains t pat = true) : strContains (s ++ t) pat = true := by
  rw [strContains_eq_true_iff] at h ⊢
  rw [String.data_append]
  rcases h with ⟨u, v, huv⟩
  exact ⟨s.data ++ u, v, by rw [← huv]; simp⟩

/-- Substring containment is preserved by appending text. -/
theorem strContains_append_left (s t pat : String)
    (h : strContains s pat = true) : strContains (s ++ t) pat = true := by
  rw [strContains_eq_true_iff] at h ⊢
  rw [String.data_append]
  rcases h with ⟨u, v, huv⟩
  exact ⟨u, v ++ t.data, by rw [← huv]; simp⟩

/-- Concatenation of strings is associative. -/
theorem strAppendAssoc (a b c : String) : a ++ b ++ c = a ++ (b ++ c) := by
  apply String.ext
  simp

/-! Concrete fixtures used to instantiate the theorems: two garments, a
subject image, and oracles for the success and refusal scenarios. -/

def gA : Garment :=
  { id := "g1", base64 := "QUFB", mimeType := "image/png", width := 512, height := 512,
    description := none }

def gB : Garment :=
  { id := "g2", base64 := "QkJC", mimeType := "image/jpeg", width := 512, height := 512,
    description := none }

def modelA : UploadedImage :=
  { id := "m1", base64 := "TU1N", mimeType := "image/png", width := 1920, height := 1080 }

def respA : SynthResponse :=
  { parts := [Part.inlineData "SU1H" "image/png"], text := none }

/-- Oracle answering every analysis call with a dress description and the
synthesis call with an inline image. -/
def oracleA : Oracle :=
  { analyze := fun _ => Except.ok (some "a black silk dress"), synth := Except.ok respA }

def refusalText : String := "I cannot process this request."

/-- Oracle whose synthesis response has text but no inline image. -/
def oracleRefusal : Oracle :=
  { analyze := fun _ => Except.ok (some "a black silk dress")
    synth := Except.ok { parts := [Part.text refusalText], text := some refusalText } }

/-- Same as `oracleRefusal` but the synthesis response carries no text at
all. -/
def oracleRefusalSilent : Oracle :=
  { analyze := fun _ => Except.ok (some "a black silk dress")
    synth := Except.ok { parts := [], text := none } }

/-- C1: strategy selection is a pure, total function of
(garmentCount, sameGarmentFlag): for every garment list of length n ≥ 1
the analysis stage enters the branch given by `selectStrategy`, and the
table holds: sameGarment = true selects Consolidated regardless of n;
sameGarment = false with n = 1 selects SingleVisualOnly; sameGarment =
false with n ≥ 2 selects ParallelIndividual. -/
theorem strategy_selection_table (initialGarments : List Garment) (isSameGarment : Bool)
    (oracle : Oracle) (h : 1 ≤ initialGarments.length) :
    (analyzeStage initialGarments isSameGarment oracle).progress
      = [strategyMessage (selectStrategy initialGarments.length isSameGarment)]
    ∧ (isSameGarment = true →
        selectStrategy initialGarments.length isSameGarment = AnalysisStrategy.Consolidated)
    ∧ (isSameGarment = false → initialGarments.length = 1 →
        selectStrategy initialGarments.length isSameGarment = AnalysisStrategy.SingleVisualOnly)
    ∧ (isSameGarment = false → 2 ≤ initialGarments.length →
        selectStrategy initialGarments.length isSameGarment = AnalysisStrategy.ParallelIndividual) := by
  refine ⟨?_, ?_, ?_, ?_⟩
  · cases isSameGarment with
    | true => simp [analyzeStage, selectStrategy]
    | false =>
      by_cases hl : initialGarments.length = 1 <;>
        simp [analyzeStage, selectStrategy, hl]
  · intro hs; simp [selectStrategy, hs]
  · intro hs hl; simp [selectStrategy, hs, hl]
  · intro hs hl
    have hne : initialGarments.length ≠ 1 := by omega
    simp [selectStrategy, hs, hne]

theorem strategy_selection_table_witness :
    (analyzeStage [gA] true oracleA).progress
      = [strategyMessage AnalysisStrategy.Consolidated] := by
  have h := strategy_selection_table [gA] true oracleA (by simp)
  simpa [selectStrategy] using h.1

/-- C2: under the Consolidated strategy the capability text is trimmed, an
empty (or missing) response falls back to the literal "garment", and the
resulting description is copied onto every garment of the batch, so all
items carry an identical description afterwards. -/
theorem consolidated_description_copied (initialGarments : List Garment)
    (oracle : Oracle) (t : Option String)
    (h : oracle.analyze 0 = Except.ok t) :
    (analyzeStage initialGarments true oracle).result
      = Except.ok (initialGarments.map
          (fun g => { g with description := some (trimOrFallback t) }))
    ∧ trimOrFallback none = "garment"
    ∧ trimOrFallback (some "") = "garment"
    ∧ (∀ s : String, s ≠ "" → trimOrFallback (some s) = s.trim)
    ∧ (∀ isolated, (analyzeStage initialGarments true oracle).result = Except.ok isolated →
        ∀ g1 ∈ isolated, ∀ g2 ∈ isolated, g1.description = g2.description) := by
  have hres : (analyzeStage initialGarments true oracle).result
      = Except.ok (initialGarments.map
          (fun g => { g with description := some (trimOrFallback t) })) := by
    simp [analyzeStage, h]
  refine ⟨hres, rfl, by simp [trimOrFallback], ?_, ?_⟩
  · intro s hs; simp [trimOrFallback, hs]
  · intro isolated hiso g1 h1 g2 h2
    rw [hres] at hiso
    simp only [Except.ok.injEq] at hiso
    subst hiso
    rcases List.mem_map.mp h1 with ⟨a, _, rfl⟩
    rcases List.mem_map.mp h2 with ⟨b, _, rfl⟩
    rfl

theorem consolidated_description_copied_witness :
    (analyzeStage [gA, gB] true oracleA).result
      = Except.ok ([gA, gB].map (fun g =>
          { g with description := some (trimOrFallback (some "a black silk dress")) })) :=
  (consolidated_description_copied [gA, gB] oracleA (some "a black silk dress") rfl).1

/-- C6: violating the entry precondition (no subject image or an empty
garment list) fails the invocation immediately with MissingInput, before
any capability call is issued (the call list is empty). -/
theorem missing_input_fails_before_calls (modelImage : Option UploadedImage)
    (garments : List Garment) (isSameGarment : Bool) (oracle : Oracle)
    (h : modelImage = none ∨ garments = []) :
    handleGenerate modelImage garments isSameGarment oracle
      = { calls := [], progress := [], result := Except.error TryOnError.MissingInput } := by
  rcases h with h | h
  · subst h; rfl
  · subst h
    cases modelImage with
    | none => rfl
    | some img => simp [handleGenerate]

theorem missing_input_fails_before_calls_witness :
    handleGenerate none [gA] false oracleA
      = { calls := [], progress := [], result := Except.error TryOnError.MissingInput } :=
  missing_input_fails_before_calls none [gA] false oracleA (Or.inl rfl)

/-- C9: recommendSize returns the structured result as-is: for every
parsable response the try-on and skipped size lists are exactly those of
the response, for every caller-supplied availableSizes (no subset
validation, no mutation); absence of a response fails with
AnalysisFailed. -/
theorem recommend_size_passthrough (bodyAnalysis : BodyAnalysis) (productInfo : String)
    (availableSizes : List String) (r : SizeRecommendation) :
    recommendSize bodyAnalysis productInfo availableSizes (some r) = Except.ok r
    ∧ (recommendSize bodyAnalysis productInfo availableSizes (some r)).map
        (fun x => (x.try_on_sizes, x.skipped_sizes))
        = Except.ok (r.try_on_sizes, r.skipped_sizes)
    ∧ recommendSize bodyAnalysis productInfo availableSizes none
        = Except.error (TryOnError.AnalysisFailed "Failed to recommend size.") :=
  ⟨rfl, rfl, rfl⟩

/-- C10: the analysis stage, when it succeeds, returns a garment list of
the same length and order as its input in which every field other than
`description` (id, encoded bytes, media type, dimensions) is unchanged. -/
theorem analysis_preserves_media_fields (initialGarments : List Garment)
    (isSameGarment : Bool) (oracle : Oracle) (isolated : List Garment)
    (h : (analyzeStage initialGarments isSameGarment oracle).result = Except.ok isolated) :
    isolated.map (fun g => g.toUploadedImage)
      = initialGarments.map (fun g => g.toUploadedImage)
    ∧ isolated.length = initialGarments.length := by
  have hmap : isolated.map (fun g => g.toUploadedImage)
      = initialGarments.map (fun g => g.toUploadedImage) := by
    by_cases hs : isSameGarment
    · simp only [analyzeStage, hs, if_true] at h
      cases ha : oracle.analyze 0 with
      | error e => rw [ha] at h; simp at h
      | ok t =>
        rw [ha] at h
        simp only [Except.ok.injEq] at h
        subst h
        simp only [List.map_map]
        rfl
    · by_cases hl : initialGarments.length = 1
      · simp only [analyzeStage, hs, hl, if_true, if_false, Bool.false_eq_true] at h
        simp only [Except.ok.injEq] at h
        subst h
        simp only [List.map_map]
        rfl
      · simp only [analyzeStage, hs, hl, if_false, Bool.false_eq_true] at h
        cases hc : collectResponses ((List.range initialGarments.length).map oracle.analyze) with
        | error e => rw [hc] at h; simp at h
        | ok texts =>
          rw [hc] at h
          simp only [Except.ok.injEq] at h
          subst h
          simp only [List.map_map]
          refine List.map_congr_left (fun a _ => ?_)
          simp only [Function.comp]
          split <;> rfl
  exact ⟨hmap, by simpa using congrArg List.length hmap⟩

theorem analysis_preserves_media_fields_witness :
    [{ gA with description := some (trimOrFallback (some "a black silk dress")) }].map
        (fun g => g.toUploadedImage)
      = [gA].map (fun g => g.toUploadedImage) :=
  (analysis_preserves_media_fields [gA] true oracleA
    [{ gA with description := some (trimOrFallback (some "a black silk dress")) }] rfl).1

/-- C3: the classifier uses only the first description when consolidated,
otherwise joins all non-empty descriptions with ", "; matching is
case-insensitive, and for the single consolidated description
"a black silk dress" the full-body-outfit, top-replacement and
bottoms-replacement flags (code names `hasDress`, `hasNewTop`,
`hasNewBottoms`) are all true. -/
theorem classifier_first_description_and_flags :
    (∀ (d : String) (ds : List String), classify (d :: ds) true = classify [d] true)
    ∧ (∀ ds : List String, classify ds false
        = deriveFlags (String.intercalate ", " (ds.filter (fun s => !(s == "")))))
    ∧ (classify ["a black silk dress"] true).hasDress = true
    ∧ (classify ["a black silk dress"] true).hasNewTop = true
    ∧ (classify ["a black silk dress"] true).hasNewBottoms = true
    ∧ classify ["A Black SILK Dress"] true = classify ["a black silk dress"] true :=
  ⟨fun d ds => by simp [classify, joinDescriptions],
   fun ds => by simp [classify, joinDescriptions],
   by decide, by decide, by decide, by decide⟩

/-- Modelled from the spec words of section 4.3, for comparison with the
code: return the first bucket of the priority table within absolute
tolerance 0.1 of width/height, 1:1 otherwise and for degenerate
dimensions. -/
def specRatioTable : List (String × ℚ) :=
  [("16:9", 16 / 9), ("9:16", 9 / 16), ("4:3", 4 / 3), ("3:4", 3 / 4)]

def resolveSpec (width height : Nat) : String :=
  if width = 0 ∨ height = 0 then "1:1"
  else
    match specRatioTable.find? (fun p => |(width : ℚ) / height - p.2| < 1 / 10) with
    | some p => p.1
    | none => "1:1"

/-- C4: aspect-ratio resolution is deterministic and total and agrees with
the spec's first-match-in-priority-order description for every
width/height pair, and the four sample pairs resolve as stated. -/
theorem aspect_ratio_resolution (width height : Nat) :
    resolveAspect width height = resolveSpec width height
    ∧ resolveAspect 1920 1080 = "16:9"
    ∧ resolveAspect 1080 1920 = "9:16"
    ∧ resolveAspect 800 800 = "1:1"
    ∧ resolveAspect 0 0 = "1:1" := by
  refine ⟨?_, ?_, ?_, ?_, ?_⟩
  · by_cases hw : width = 0
    · simp [resolveAspect, resolveSpec, hw]
    · by_cases hh : height = 0
      · simp [resolveAspect, resolveSpec, hw, hh]
      · by_cases h1 : |(width : ℚ) / height - 16 / 9| < (10 : ℚ)⁻¹ <;>
          by_cases h2 : |(width : ℚ) / height - 9 / 16| < (10 : ℚ)⁻¹ <;>
            by_cases h3 : |(width : ℚ) / height - 4 / 3| < (10 : ℚ)⁻¹ <;>
              by_cases h4 : |(width : ℚ) / height - 3 / 4| < (10 : ℚ)⁻¹ <;>
                simp [resolveAspect, resolveSpec, specRatioTable, hw, hh, h1, h2, h3, h4]
  · unfold resolveAspect; norm_num [abs_lt]
  · unfold resolveAspect; norm_num [abs_lt]
  · unfold resolveAspect; norm_num [abs_lt]
  · unfold resolveAspect; norm_num

/-- Distinguishes the two kinds of capability call. -/
def isSynthCall : CapCall → Bool
  | CapCall.synthesizeImage _ _ => true
  | CapCall.analyzeText _ => false

/-- C8: with one subject and exactly one garment and sameGarment = false,
the orchestration takes the SingleVisualOnly branch, sets the garment
description to the empty string, issues no analyzeText call and exactly
one synthesizeImage call, and on an inline-image response succeeds with
the synthesized image data URL. -/
theorem single_garment_visual_only (modelImage : UploadedImage) (g : Garment)
    (oracle : Oracle) :
    (analyzeStage [g] false oracle).calls = []
    ∧ (analyzeStage [g] false oracle).result
        = Except.ok [{ g with description := some "" }]
    ∧ (generateVirtualTryOn modelImage [g] false oracle).calls.length = 1
    ∧ (∀ c ∈ (generateVirtualTryOn modelImage [g] false oracle).calls,
        isSynthCall c = true)
    ∧ (∀ (resp : SynthResponse) (dat mt : String),
        oracle.synth = Except.ok resp →
        resp.parts.find? partHasInlineData = some (Part.inlineData dat mt) →
        (generateVirtualTryOn modelImage [g] false oracle).result
          = Except.ok ("data:" ++ mt ++ ";base64," ++ dat)) := by
  refine ⟨rfl, rfl, ?_, ?_, ?_⟩
  · unfold generateVirtualTryOn finishStage analyzeStage
    cases oracle.synth with
    | error e => simp
    | ok resp =>
      cases hf : resp.parts.find? partHasInlineData with
      | none => simp [hf]
      | some p => cases p <;> simp [hf]
  · unfold generateVirtualTryOn finishStage analyzeStage
    cases oracle.synth with
    | error e => simp [isSynthCall]
    | ok resp =>
      cases hf : resp.parts.find? partHasInlineData with
      | none => simp [hf, isSynthCall]
      | some p => cases p <;> simp [hf, isSynthCall]
  · intro resp dat mt hs hf
    unfold generateVirtualTryOn finishStage analyzeStage
    rw [hs]
    simp [hf]

theorem single_garment_visual_only_witness :
    (generateVirtualTryOn modelA [gB] false oracleA).result
      = Except.ok ("data:" ++ "image/png" ++ ";base64," ++ "SU1H") :=
  (single_garment_visual_only modelA gB oracleA).2.2.2.2 respA "SU1H" "image/png" rfl rfl

/-- C5 counterexample: a synthesis response with textual content but no
inline image makes the orchestration fail with NoImageProduced, but the
error carries only the fixed diagnostic message: it does not contain the
capability's textual explanation, and it is identical to the error
produced when no explanation is present at all (the explanation is only
logged, never attached). -/
theorem no_image_error_drops_explanation :
    (generateVirtualTryOn modelA [gA] false oracleRefusal).result
      = Except.error (TryOnError.NoImageProduced noImageMessage)
    ∧ strContains noImageMessage refusalText = false
    ∧ (generateVirtualTryOn modelA [gA] false oracleRefusal).result
        = (generateVirtualTryOn modelA [gA] false oracleRefusalSilent).result :=
  ⟨rfl, by decide, rfl⟩

/-- C5 (amended): when the synthesis call succeeds at the transport level
but its response contains no inline image payload (even if it contains
textual content), the orchestration fails with the terminal
NoImageProduced error carrying the fixed diagnostic message — not
AnalysisFailed and distinct from a transport failure; the capability's
textual explanation is not attached to the error. -/
theorem no_image_produces_terminal_error (modelImage : UploadedImage)
    (initialGarments : List Garment) (isSameGarment : Bool) (oracle : Oracle)
    (isolated : List Garment) (response : SynthResponse)
    (hA : (analyzeStage initialGarments isSameGarment oracle).result = Except.ok isolated)
    (hS : oracle.synth = Except.ok response)
    (hN : response.parts.find? partHasInlineData = none) :
    (generateVirtualTryOn modelImage initialGarments isSameGarment oracle).result
      = Except.error (TryOnError.NoImageProduced noImageMessage) := by
  simp only [generateVirtualTryOn, finishStage, hA, hS, hN]

theorem no_image_produces_terminal_error_witness :
    (generateVirtualTryOn modelA [gA, gB] true oracleRefusal).result
      = Except.error (TryOnError.NoImageProduced noImageMessage) :=
  no_image_produces_terminal_error modelA [gA, gB] true oracleRefusal
    [{ gA with description := some (trimOrFallback (some "a black silk dress")) },
     { gB with description := some (trimOrFallback (some "a black silk dress")) }]
    { parts := [Part.text refusalText], text := some refusalText } rfl rfl rfl

def flagsNecklaceOnly : StylingFlags :=
  { hasDress := false, hasNecklace := true, hasShoes := false,
    hasNewBottoms := false, hasNewTop := false, hasHat := false }

/-- The ELSE-branch sentence of the neckwear conditional in the prompt
template. -/
def neckStylingDirective : String :=
  "Style scarves/ties naturally around the neck as intended by the original garment."

set_option maxRecDepth 100000 in
/-- C7 counterexample: the scarf/tie-at-the-neck styling sentence appears
in the built prompt even when hasNecklace is true (the template always
contains both branches of the neckwear conditional as text), so the
sentence does not appear "only when hasNecklace is false". -/
theorem neck_directive_text_always_present :
    flagsNecklaceOnly.hasNecklace = true
    ∧ strContains (buildPrompt flagsNecklaceOnly "1:1" "") neckStylingDirective = true :=
  ⟨rfl, by decide⟩

set_option maxRecDepth 100000 in
/-- C7 (amended): the neckwear block of the built prompt is a textual
conditional; when hasNecklace is true the prompt marks the necklace
condition as YES and contains the directive strictly banning scarves/ties
from the neck, while the scarf-at-the-neck sentence occurs only as the
text of the "ELSE (No necklace)" branch — so the directives, read with
their stated conditions, never simultaneously instruct neck placement of
a scarf/tie. -/
theorem necklace_branch_marked_yes (flags : StylingFlags) (ar descs : String)
    (h : flags.hasNecklace = true) :
    strContains (buildPrompt flags ar descs) "NECKLACE (YES): " = true
    ∧ strContains (buildPrompt flags ar descs)
        "It is strictly banned from the neck area to avoid conflict." = true
    ∧ strContains (buildPrompt flags ar descs)
        ("**ELSE** (No necklace): " ++ neckStylingDirective) = true := by
  unfold buildPrompt
  rw [h, if_pos rfl]
  refine ⟨?_, ?_, ?_⟩
  · iterate 10 apply strContains_append_left
    rw [strAppendAssoc, strAppendAssoc]
    apply strContains_append_right
    decide
  · iterate 10 apply strContains_append_left
    apply strContains_append_right
    decide
  · iterate 10 apply strContains_append_left
    apply strContains_append_right
    decide

theorem necklace_branch_marked_yes_witness :
    strContains (buildPrompt flagsNecklaceOnly "1:1" "a pearl necklace") "NECKLACE (YES): "
      = true :=
  (necklace_branch_marked_yes flagsNecklaceOnly "1:1" "a pearl necklace" rfl).1

end VirtualTryOn
